/-
Verification of the Video-Metadata-Modifier orchestration layer.

The Python program (`Video-Metadata-Modifier.py`) shells out to external
binaries (ffmpeg, ffprobe, exiftool) and to the mutagen library, and wires
these together behind a CLI.  We embed the program shallowly: the external
world (filesystem, subprocesses, JSON parsing of external output, the
mutagen library, the GUI toolkit) is an `Env` of oracles, each operation is
a pure Lean function returning its result together with the list of
observable effects (process invocations, log lines, prints) it produced,
and Python exceptions that a function can let escape are modelled with
`Except`.  Python dicts that the program iterates over are modelled as
association lists in insertion order.
-/
import Mathlib

set_option autoImplicit false

/-- Severity level of a log line (`logger.info` / `logger.warning` /
`logger.error` in the source). -/
inductive Level where
  | info
  | warning
  | error
deriving DecidableEq

/-- Observable effects of a run: attempted subprocess invocations
(`subprocess.run cmd`), log lines, mutagen file operations, and `print`
output. -/
inductive Effect where
  | runProc (cmd : List String)
  | log (lvl : Level) (msg : String)
  | mutagenOpen (path : String)
  | mutagenSave (path : String)
  | print (msg : String)
  | guiRun
deriving DecidableEq

/-- Captured output of a completed subprocess. -/
structure ProcOut where
  stdout : String
  stderr : String
deriving DecidableEq

/-- Outcome of `subprocess.run(cmd, capture_output=True, check=True)`:
exit 0, non-zero exit (raising `CalledProcessError`), or an absent binary
(raising `FileNotFoundError`). -/
inductive RunOutcome where
  | ok (out : ProcOut)
  | err (out : ProcOut)
  | notFound
deriving DecidableEq

/-- Python exceptions that escape the embedded functions. -/
inductive PyExc where
  | runtimeError (msg : String)
  | fileNotFoundError (msg : String)
  | valueError (msg : String)
deriving DecidableEq

/-- Message text of an exception, as interpolated into f-strings. -/
def pyExcMsg : PyExc → String
  | .runtimeError m => m
  | .fileNotFoundError m => m
  | .valueError m => m

/-- JSON values, for the parsed output of the probing tool. -/
inductive JVal where
  | s (v : String)
  | n (v : Int)
  | b (v : Bool)
  | null
  | rat (v : ℚ)
  | arr (xs : List JVal)
  | obj (fields : List (String × JVal))

/-- A metadata document: the top-level JSON object returned by the probe,
as an association list in insertion order. -/
abbrev MetaDoc := List (String × JVal)

/-- A device profile: a flat string-to-string mapping in insertion order. -/
abbrev Profile := List (String × String)

/-- The process-lifetime metadata cache (`_metadata_cache`), keyed by file
path. -/
abbrev Cache := List (String × MetaDoc)

/-- Result of the mutagen open/tag/save sequence, abstracted into a single
oracle outcome: either the whole sequence succeeds, or some step raises an
exception with the given message. -/
inductive MutagenOutcome where
  | ok
  | raise (msg : String)

/-- Oracles for everything outside the program: the filesystem, subprocess
execution, JSON parsing of external text, the mutagen library and the GUI
toolkit.  `loadJsonProfile` merges `open` + `json.load` for a profile file:
an error covers both a missing/unreadable file and invalid JSON, carrying
the exception message. -/
structure Env where
  run : List String → RunOutcome
  fileExists : String → Bool
  sizeBytes : String → Nat
  ctimeStr : String → String
  mtimeStr : String → String
  jsonLoadsDoc : String → Option MetaDoc
  loadJsonProfile : String → Except String Profile
  mutagenRun : String → String → Profile → Option String → MutagenOutcome
  jsonDumps : MetaDoc → String
  guiLaunch : Except String Unit

/-- Key lookup in an association list (first match), i.e. Python dict
access restricted to the keys the program actually stores. -/
def lookupKey {β : Type} : List (String × β) → String → Option β
  | [], _ => none
  | (k, v) :: rest, key => if k = key then some v else lookupKey rest key

/-- Python dict assignment `d[k] = v` on an association list: replace in
place if the key is present, else append. -/
def setKey (d : List (String × JVal)) (k : String) (v : JVal) : List (String × JVal) :=
  if d.any (fun p => p.1 = k) then
    d.map (fun p => if p.1 = k then (k, v) else p)
  else
    d ++ [(k, v)]

/-- ASCII lowercasing, as `str.lower()` on the strings this program
handles. -/
def strToLower (s : String) : String := String.mk (s.toList.map Char.toLower)

/-- ASCII uppercasing, as `str.upper()`. -/
def strToUpper (s : String) : String := String.mk (s.toList.map Char.toUpper)

/-- Split a character list at its last occurrence of `sep`:
`some (before, after)` when `sep` occurs, `none` otherwise. -/
def lastSplit (sep : Char) : List Char → Option (List Char × List Char)
  | [] => none
  | c :: cs =>
    match lastSplit sep cs with
    | some (pre, post) => some (c :: pre, post)
    | none => if c = sep then some ([], cs) else none

/-- Final path component (`Path(p).name`): everything after the last `/`
(trailing-slash normalization is not modelled; no claim involves it). -/
def pathName (p : String) : String :=
  match lastSplit '/' p.toList with
  | some (_, post) => String.mk post
  | none => p

/-- The extension including the dot (`Path(p).suffix`): the part of the
final component from its last dot on, provided that dot is neither the
first nor the last character of the component; empty otherwise. -/
def pathSuffix (p : String) : String :=
  match lastSplit '.' (pathName p).toList with
  | some (pre, post) =>
    if pre.isEmpty || post.isEmpty then "" else String.mk ('.' :: post)
  | none => ""

/-- The `SUPPORTED_FORMATS` list from the source. -/
def SUPPORTED_FORMATS : List String := [".mp4", ".mov", ".avi", ".mkv", ".m4v", ".3gp"]

/-- Embedding of `validate_input_file`: existence check, then extension
check against `SUPPORTED_FORMATS` (lowercased). -/
def validate_input_file (env : Env) (file_path : String) : Bool × List Effect :=
  if !(env.fileExists file_path) then
    (false, [.log .error ("Input file does not exist: " ++ file_path)])
  else
    let file_ext := strToLower (pathSuffix file_path)
    if !(SUPPORTED_FORMATS.contains file_ext) then
      (false, [.log .error ("Unsupported file format: " ++ file_ext)])
    else
      (true, [])

/-- Command line of the probing tool for a path, as built in
`get_current_metadata`. -/
def probeCmd (file_path : String) : List String :=
  ["ffprobe", "-v", "quiet", "-print_format", "json", "-show_format",
   "-show_streams", "-show_chapters", "-show_packets", file_path]

/-- The `file_info` sub-document merged into a probed document: name,
size in MiB (exact rational standing in for the Python float), upper-cased
extension without the dot, and formatted creation/modification times
supplied by the filesystem oracle. -/
def fileInfo (env : Env) (file_path : String) : JVal :=
  .obj [("file_name", .s (pathName file_path)),
        ("file_size", .rat ((env.sizeBytes file_path : ℚ) / (1024 * 1024))),
        ("file_format", .s (strToUpper (String.mk (pathSuffix file_path).toList.tail))),
        ("date_created", .s (env.ctimeStr file_path)),
        ("date_modified", .s (env.mtimeStr file_path))]

/-- Embedding of `get_current_metadata`.  On a cache hit the cached
document is returned with no effects.  Otherwise the probe is invoked:
exit 0 parses stdout (a JSON decode failure escapes as `ValueError`),
merges `file_info` and caches the document; a non-zero exit is caught,
logged, and caches the empty document; an absent binary escapes as
`FileNotFoundError`.  The cache is returned alongside. -/
def get_current_metadata (env : Env) (cache : Cache) (file_path : String) :
    Except PyExc MetaDoc × Cache × List Effect :=
  match lookupKey cache file_path with
  | some doc => (.ok doc, cache, [])
  | none =>
    match env.run (probeCmd file_path) with
    | .ok out =>
      match env.jsonLoadsDoc out.stdout with
      | some metadata =>
        let doc := setKey metadata "file_info" (fileInfo env file_path)
        (.ok doc, cache ++ [(file_path, doc)], [.runProc (probeCmd file_path)])
      | none =>
        (.error (.valueError ("Expecting value: " ++ out.stdout)),
         cache, [.runProc (probeCmd file_path)])
    | .err out =>
      (.ok [], cache ++ [(file_path, [])],
       [.runProc (probeCmd file_path),
        .log .error ("Failed to read metadata: " ++ out.stderr)])
    | .notFound =>
      (.error (.fileNotFoundError "ffprobe"), cache, [.runProc (probeCmd file_path)])

/-- Embedding of `build_metadata_args`: one `-metadata key=value` pair per
profile entry, in insertion order, then a `creation_time` pair when a
custom date is given. -/
def build_metadata_args (profile : Profile) (custom_date : Option String) : List String :=
  (profile.flatMap (fun kv => ["-metadata", kv.1 ++ "=" ++ kv.2])) ++
  (match custom_date with
   | some d => ["-metadata", "creation_time=" ++ d]
   | none => [])

/-- Join a command's words with spaces, as `' '.join(cmd)` in the log
lines. -/
def joinSpace (cmd : List String) : String :=
  String.intercalate " " cmd

/-- The ffmpeg command line built by `modify_metadata_ffmpeg`. -/
def ffmpegCmd (input_file output_file : String) (profile : Profile)
    (custom_date : Option String) : List String :=
  ["ffmpeg", "-i", input_file, "-c", "copy", "-map_metadata", "0"] ++
  build_metadata_args profile custom_date ++ ["-y", output_file]

/-- Embedding of `modify_metadata_ffmpeg`: run the tool; exit 0 yields
`True`, a non-zero exit is caught and yields `False`, an absent binary
escapes as `FileNotFoundError` (the source catches only
`CalledProcessError`). -/
def modify_metadata_ffmpeg (env : Env) (input_file output_file : String)
    (device_profile : Profile) (custom_date : Option String) :
    Except PyExc Bool × List Effect :=
  let cmd := ffmpegCmd input_file output_file device_profile custom_date
  let pre : List Effect := [.log .info ("Executing: " ++ joinSpace cmd), .runProc cmd]
  match env.run cmd with
  | .ok _ =>
    (.ok true,
     pre ++ [.log .info ("Metadata successfully modified with FFmpeg. Output saved to " ++ output_file)])
  | .err out => (.ok false, pre ++ [.log .error ("FFmpeg error: " ++ out.stderr)])
  | .notFound => (.error (.fileNotFoundError "ffmpeg"), pre)

/-- The exiftool command line built by `modify_metadata_exiftool`. -/
def exiftoolCmd (input_file output_file : String) (profile : Profile)
    (custom_date : Option String) : List String :=
  ["exiftool", "-o", output_file] ++
  profile.map (fun kv => "-" ++ kv.1 ++ "=" ++ kv.2) ++
  (match custom_date with
   | some d => ["-CreateDate=" ++ d, "-ModifyDate=" ++ d]
   | none => []) ++
  ["-overwrite_original", input_file]

/-- Embedding of `modify_metadata_exiftool`, with the same
catch-only-`CalledProcessError` policy as the ffmpeg backend. -/
def modify_metadata_exiftool (env : Env) (input_file output_file : String)
    (device_profile : Profile) (custom_date : Option String) :
    Except PyExc Bool × List Effect :=
  let cmd := exiftoolCmd input_file output_file device_profile custom_date
  let pre : List Effect := [.log .info ("Executing: " ++ joinSpace cmd), .runProc cmd]
  match env.run cmd with
  | .ok _ =>
    (.ok true,
     pre ++ [.log .info ("Metadata modified with ExifTool. Output saved to " ++ output_file)])
  | .err out => (.ok false, pre ++ [.log .error ("ExifTool error: " ++ out.stderr)])
  | .notFound => (.error (.fileNotFoundError "exiftool"), pre)

/-- Embedding of `modify_metadata_mutagen`.  A non-`.mp4` input is skipped
with a warning and `False`, touching neither the file nor any process.
Otherwise the open/tag/save sequence is one oracle call; the source wraps
it in a catch-all, so no exception escapes. -/
def modify_metadata_mutagen (env : Env) (input_file output_file : String)
    (device_profile : Profile) (custom_date : Option String) :
    Except PyExc Bool × List Effect :=
  if strToLower (pathSuffix input_file) ≠ ".mp4" then
    (.ok false, [.log .warning "Mutagen supports only MP4 files. Skipping."])
  else
    match env.mutagenRun input_file output_file device_profile custom_date with
    | .ok =>
      (.ok true,
       [.mutagenOpen input_file, .mutagenSave output_file,
        .log .info ("Metadata modified with mutagen. Output saved to " ++ output_file)])
    | .raise msg =>
      (.ok false, [.mutagenOpen input_file, .log .error ("Mutagen error: " ++ msg)])

/-- Embedding of `modify_metadata`: dispatch on the method name; an
unrecognized name logs an error and falls back to the ffmpeg backend. -/
def modify_metadata (env : Env) (input_file output_file : String)
    (device_profile : Profile) (custom_date : Option String) (method : String) :
    Except PyExc Bool × List Effect :=
  if method = "mutagen" then
    modify_metadata_mutagen env input_file output_file device_profile custom_date
  else if method = "exiftool" then
    modify_metadata_exiftool env input_file output_file device_profile custom_date
  else if method = "ffmpeg" then
    modify_metadata_ffmpeg env input_file output_file device_profile custom_date
  else
    let r := modify_metadata_ffmpeg env input_file output_file device_profile custom_date
    (r.1, .log .error ("Unsupported method: " ++ method ++ ". Falling back to FFmpeg.") :: r.2)

/-- The ffmpeg command line built by `strip_metadata`. -/
def stripCmd (input_file output_file : String) : List String :=
  ["ffmpeg", "-i", input_file, "-c", "copy", "-map_metadata", "-1", "-y", output_file]

/-- Embedding of `strip_metadata`: drop all metadata via the transcode
tool, same error policy as the other ffmpeg call sites. -/
def strip_metadata (env : Env) (input_file output_file : String) :
    Except PyExc Bool × List Effect :=
  let cmd := stripCmd input_file output_file
  let pre : List Effect := [.log .info ("Executing: " ++ joinSpace cmd), .runProc cmd]
  match env.run cmd with
  | .ok _ => (.ok true, pre ++ [.log .info ("Metadata stripped. Output saved to " ++ output_file)])
  | .err out => (.ok false, pre ++ [.log .error ("FFmpeg error: " ++ out.stderr)])
  | .notFound => (.error (.fileNotFoundError "ffmpeg"), pre)

/-- Embedding of `load_custom_profile`: any failure of opening or parsing
is caught, logged, and turned into the empty mapping. -/
def load_custom_profile (env : Env) (profile_path : String) : Profile × List Effect :=
  match env.loadJsonProfile profile_path with
  | .ok p => (p, [])
  | .error e => ([], [.log .error ("Failed to load custom profile: " ++ e)])

/-- Embedding of `check_tools`: an unavailable ffmpeg raises
`RuntimeError`; an unavailable exiftool only logs a warning. -/
def check_tools (env : Env) : Except PyExc Unit × List Effect :=
  match env.run ["ffmpeg", "-version"] with
  | .ok _ =>
    let e1 : List Effect := [.runProc ["ffmpeg", "-version"], .log .info "FFmpeg is available"]
    match env.run ["exiftool", "-ver"] with
    | .ok _ =>
      (.ok (), e1 ++ [.runProc ["exiftool", "-ver"], .log .info "ExifTool is available"])
    | _ =>
      (.ok (),
       e1 ++ [.runProc ["exiftool", "-ver"],
              .log .warning "ExifTool not found. Some metadata features may be limited."])
  | _ =>
    (.error (.runtimeError "FFmpeg is required but not found. Please install FFmpeg."),
     [.runProc ["ffmpeg", "-version"], .log .error "FFmpeg is not installed or not accessible"])

/-- The ten built-in device profiles (`get_device_profiles`), in source
order. -/
def get_device_profiles : List (String × Profile) :=
  [("iPhone 14 Pro",
    [("make", "Apple"), ("model", "iPhone 14 Pro"), ("software", "iOS 16.0"),
     ("encoder", "HEVC (H.265)"),
     ("creation_tool", "iPhone 14 Pro back triple camera 6.86mm f/1.78")]),
   ("Samsung Galaxy S24 Ultra",
    [("make", "Samsung"), ("model", "SM-S928B"), ("software", "Android 14"),
     ("encoder", "HEVC (H.265)"), ("creation_tool", "Samsung Galaxy S24 Ultra")]),
   ("Google Pixel 9 Pro",
    [("make", "Google"), ("model", "Pixel 9 Pro"), ("software", "Android 15"),
     ("encoder", "HEVC (H.265)"), ("creation_tool", "Google Pixel 9 Pro")]),
   ("Samsung Galaxy Z Fold 6",
    [("make", "Samsung"), ("model", "SM-F956B"), ("software", "Android 14"),
     ("encoder", "HEVC (H.265)"), ("creation_tool", "Samsung Galaxy Z Fold 6")]),
   ("OnePlus Open",
    [("make", "OnePlus"), ("model", "CPH2517"), ("software", "Android 14"),
     ("encoder", "HEVC (H.265)"), ("creation_tool", "OnePlus Open")]),
   ("Xiaomi 15",
    [("make", "Xiaomi"), ("model", "2405CPH5DC"), ("software", "Android 15"),
     ("encoder", "HEVC (H.265)"), ("creation_tool", "Xiaomi 15")]),
   ("Huawei Mate 60 Pro",
    [("make", "Huawei"), ("model", "DCO-AL00"), ("software", "HarmonyOS 4.0"),
     ("encoder", "HEVC (H.265)"), ("creation_tool", "Huawei Mate 60 Pro")]),
   ("Sony Xperia 5 VI",
    [("make", "Sony"), ("model", "XQ-DQ74"), ("software", "Android 14"),
     ("encoder", "HEVC (H.265)"), ("creation_tool", "Sony Xperia 5 VI")]),
   ("Oppo Find N3",
    [("make", "Oppo"), ("model", "CPH2511"), ("software", "Android 13"),
     ("encoder", "HEVC (H.265)"), ("creation_tool", "Oppo Find N3")]),
   ("Vivo X100 Pro",
    [("make", "Vivo"), ("model", "V2303A"), ("software", "Android 14"),
     ("encoder", "HEVC (H.265)"), ("creation_tool", "Vivo X100 Pro")])]

/-- The device names, in profile order. -/
def deviceNames : List String := get_device_profiles.map Prod.fst

/-- Parsed command-line arguments, one field per `add_argument` in `main`;
`method` defaults to `"ffmpeg"` at the argparse level. -/
structure Args where
  input : Option String
  output : Option String
  device : Option String
  custom_profile : Option String
  custom_date : Option String
  strip : Bool
  list_devices : Bool
  gui : Bool
  show_metadata : Option String
  method : String

/-- The `choices=` restrictions argparse enforces while parsing: `--device`
must be a built-in name and `--method` one of the three backends.  A
violation makes `parser.error` exit the process with status 2. -/
def argsChoicesOk (a : Args) : Bool :=
  (match a.device with
   | some d => deviceNames.contains d
   | none => true) &&
  ["ffmpeg", "mutagen", "exiftool"].contains a.method

/-- Exit code and observable effects of one CLI run. -/
structure RunResult where
  exitCode : Nat
  effects : List Effect
deriving DecidableEq

/-- Embedding of the source's `main` (named `cliMain`, since Lean reserves
`main` for executables), argparse layer included: invalid `choices` values
and every `parser.error` call exit with status 2 (argparse's documented
behaviour); the per-action bodies follow the source line by line.  A fresh
process starts with an empty metadata cache.  `sys.exit(1)` raises
`SystemExit`, which the `except Exception` handlers do not catch, so those
exits pass through the try blocks. -/
def cliMain (env : Env) (args : Args) : RunResult :=
  if !(argsChoicesOk args) then ⟨2, []⟩
  else if args.gui then
    match env.guiLaunch with
    | .ok _ => ⟨0, [.guiRun]⟩
    | .error e => ⟨1, [.log .error ("Failed to launch GUI: " ++ e)]⟩
  else if args.list_devices then
    ⟨0, .print "Available device profiles:" ::
        deviceNames.map (fun d => .print ("  - " ++ d))⟩
  else
    match args.show_metadata with
    | some p =>
      let ct := check_tools env
      match ct.1 with
      | .error e =>
        ⟨1, ct.2 ++ [.log .error ("Failed to read metadata: " ++ pyExcMsg e)]⟩
      | .ok _ =>
        let v := validate_input_file env p
        if v.1 then
          let g := get_current_metadata env [] p
          match g.1 with
          | .ok doc => ⟨0, ct.2 ++ v.2 ++ g.2.2 ++ [.print (env.jsonDumps doc)]⟩
          | .error e =>
            ⟨1, ct.2 ++ v.2 ++ g.2.2 ++
                [.log .error ("Failed to read metadata: " ++ pyExcMsg e)]⟩
        else ⟨0, ct.2 ++ v.2⟩
    | none =>
      match args.input, args.output with
      | some input, some output =>
        if args.strip &&
           (args.device.isSome || args.custom_profile.isSome || args.custom_date.isSome) then
          ⟨2, []⟩
        else if !args.strip && args.device.isNone && args.custom_profile.isNone then
          ⟨2, []⟩
        else
          let ct := check_tools env
          match ct.1 with
          | .error e => ⟨1, ct.2 ++ [.log .error ("An error occurred: " ++ pyExcMsg e)]⟩
          | .ok _ =>
            let v := validate_input_file env input
            if !v.1 then ⟨1, ct.2 ++ v.2⟩
            else if args.strip then
              let s := strip_metadata env input output
              match s.1 with
              | .ok true =>
                ⟨0, ct.2 ++ v.2 ++ s.2 ++
                    [.print ("Successfully stripped metadata. Output saved to: " ++ output)]⟩
              | .ok false =>
                ⟨1, ct.2 ++ v.2 ++ s.2 ++ [.print "Failed to strip metadata."]⟩
              | .error e =>
                ⟨1, ct.2 ++ v.2 ++ s.2 ++
                    [.log .error ("An error occurred: " ++ pyExcMsg e)]⟩
            else
              let pr : Profile × List Effect :=
                match args.custom_profile with
                | some cp => load_custom_profile env cp
                | none =>
                  (match args.device with
                   | some d => (lookupKey get_device_profiles d).getD []
                   | none => [], [])
              if pr.1.isEmpty && args.custom_profile.isNone then
                ⟨1, ct.2 ++ v.2 ++ pr.2 ++ [.log .error "Invalid device profile"]⟩
              else
                let m := modify_metadata env input output pr.1 args.custom_date args.method
                match m.1 with
                | .ok true =>
                  ⟨0, ct.2 ++ v.2 ++ pr.2 ++ m.2 ++
                      [.print ("Successfully modified metadata. Output saved to: " ++ output)]⟩
                | .ok false =>
                  ⟨1, ct.2 ++ v.2 ++ pr.2 ++ m.2 ++ [.print "Failed to modify metadata."]⟩
                | .error e =>
                  ⟨1, ct.2 ++ v.2 ++ pr.2 ++ m.2 ++
                      [.log .error ("An error occurred: " ++ pyExcMsg e)]⟩
      | _, _ => ⟨2, []⟩

/-- A successful subprocess output with empty streams. -/
def okOut : ProcOut := ⟨"", ""⟩

/-- An environment in which every external interaction succeeds. -/
def envAllOk : Env where
  run := fun _ => .ok okOut
  fileExists := fun _ => true
  sizeBytes := fun _ => 0
  ctimeStr := fun _ => "2026-01-01 00:00:00"
  mtimeStr := fun _ => "2026-01-01 00:00:00"
  jsonLoadsDoc := fun _ => some []
  loadJsonProfile := fun _ => .ok [("make", "Apple")]
  mutagenRun := fun _ _ _ _ => .ok
  jsonDumps := fun _ => ""
  guiLaunch := .ok ()

/-- Like `envAllOk`, but the custom-profile file cannot be loaded. -/
def envProfileLoadFail : Env where
  run := fun _ => .ok okOut
  fileExists := fun _ => true
  sizeBytes := fun _ => 0
  ctimeStr := fun _ => "2026-01-01 00:00:00"
  mtimeStr := fun _ => "2026-01-01 00:00:00"
  jsonLoadsDoc := fun _ => some []
  loadJsonProfile := fun _ => .error "No such file or directory"
  mutagenRun := fun _ _ _ _ => .ok
  jsonDumps := fun _ => ""
  guiLaunch := .ok ()

/-- An environment in which every subprocess exits non-zero. -/
def envProcFail : Env where
  run := fun _ => .err ⟨"", "boom"⟩
  fileExists := fun _ => true
  sizeBytes := fun _ => 0
  ctimeStr := fun _ => "2026-01-01 00:00:00"
  mtimeStr := fun _ => "2026-01-01 00:00:00"
  jsonLoadsDoc := fun _ => some []
  loadJsonProfile := fun _ => .ok [("make", "Apple")]
  mutagenRun := fun _ _ _ _ => .ok
  jsonDumps := fun _ => ""
  guiLaunch := .ok ()

/-- An environment in which the exiftool binary is absent and everything
else succeeds. -/
def envNoExiftool : Env where
  run := fun cmd => if cmd.head? = some "exiftool" then .notFound else .ok okOut
  fileExists := fun _ => true
  sizeBytes := fun _ => 0
  ctimeStr := fun _ => "2026-01-01 00:00:00"
  mtimeStr := fun _ => "2026-01-01 00:00:00"
  jsonLoadsDoc := fun _ => some []
  loadJsonProfile := fun _ => .ok [("make", "Apple")]
  mutagenRun := fun _ _ _ _ => .ok
  jsonDumps := fun _ => ""
  guiLaunch := .ok ()

/-- An environment in which check_tools succeeds but the ffmpeg write
invocations exit non-zero. -/
def envWriteFail : Env where
  run := fun cmd => if cmd = ["ffmpeg", "-version"] || cmd = ["exiftool", "-ver"]
                    then .ok okOut else .err ⟨"", "write failed"⟩
  fileExists := fun _ => true
  sizeBytes := fun _ => 0
  ctimeStr := fun _ => "2026-01-01 00:00:00"
  mtimeStr := fun _ => "2026-01-01 00:00:00"
  jsonLoadsDoc := fun _ => some []
  loadJsonProfile := fun _ => .ok [("make", "Apple")]
  mutagenRun := fun _ _ _ _ => .ok
  jsonDumps := fun _ => ""
  guiLaunch := .ok ()

/-- A CLI invocation with no flags at all (method takes its argparse
default). -/
def argsEmpty : Args where
  input := none
  output := none
  device := none
  custom_profile := none
  custom_date := none
  strip := false
  list_devices := false
  gui := false
  show_metadata := none
  method := "ffmpeg"

/-- A modify invocation whose profile comes from a custom-profile file. -/
def argsModifyCustom : Args where
  input := some "in.mp4"
  output := some "out.mp4"
  device := none
  custom_profile := some "p.json"
  custom_date := none
  strip := false
  list_devices := false
  gui := false
  show_metadata := none
  method := "ffmpeg"

/-- A strip invocation. -/
def argsStrip : Args where
  input := some "in.mov"
  output := some "out.mov"
  device := none
  custom_profile := none
  custom_date := none
  strip := true
  list_devices := false
  gui := false
  show_metadata := none
  method := "ffmpeg"

/-- A modify invocation with a named device profile. -/
def argsDevice : Args where
  input := some "in.mp4"
  output := some "out.mp4"
  device := some "iPhone 14 Pro"
  custom_profile := none
  custom_date := none
  strip := false
  list_devices := false
  gui := false
  show_metadata := none
  method := "ffmpeg"

/-- A show-metadata invocation for a file with an unsupported extension. -/
def argsShowBad : Args where
  input := none
  output := none
  device := none
  custom_profile := none
  custom_date := none
  strip := false
  list_devices := false
  gui := false
  show_metadata := some "notes.txt"
  method := "ffmpeg"

theorem lookupKey_append_left {β : Type} (l l2 : List (String × β)) (q : String) (dq : β)
    (h : lookupKey l q = some dq) : lookupKey (l ++ l2) q = some dq := by
  induction l with
  | nil => simp [lookupKey] at h
  | cons kv rest ih =>
    obtain ⟨k, v⟩ := kv
    simp only [lookupKey, List.cons_append] at h ⊢
    by_cases hk : k = q
    · simpa [hk] using h
    · simp only [hk, if_false] at h ⊢
      exact ih h

theorem lookupKey_append_self {β : Type} (l : List (String × β)) (p : String) (v : β)
    (h : lookupKey l p = none) : lookupKey (l ++ [(p, v)]) p = some v := by
  induction l with
  | nil => simp [lookupKey]
  | cons kv rest ih =>
    obtain ⟨k, w⟩ := kv
    simp only [lookupKey, List.cons_append] at h ⊢
    by_cases hk : k = p
    · simp [hk] at h
    · simp only [hk, if_false] at h ⊢
      exact ih h

theorem metaArgs_length (profile : Profile) :
    (profile.flatMap (fun kv => ["-metadata", kv.1 ++ "=" ++ kv.2])).length =
      2 * profile.length := by
  induction profile with
  | nil => rfl
  | cons kv rest ih =>
    simp only [List.flatMap_cons, List.length_append, List.length_cons, ih,
      List.length_nil]
    ring

theorem metaArgs_get (profile : Profile) :
    ∀ i (h : i < profile.length),
      (profile.flatMap (fun kv => ["-metadata", kv.1 ++ "=" ++ kv.2])).get? (2 * i) =
        some "-metadata" ∧
      (profile.flatMap (fun kv => ["-metadata", kv.1 ++ "=" ++ kv.2])).get? (2 * i + 1) =
        some ((profile.get ⟨i, h⟩).1 ++ "=" ++ (profile.get ⟨i, h⟩).2) := by
  induction profile with
  | nil => intro i h; exact absurd h (Nat.not_lt_zero i)
  | cons kv rest ih =>
    intro i h
    cases i with
    | zero => exact ⟨rfl, rfl⟩
    | succ j =>
      have hj : j < rest.length := Nat.lt_of_succ_lt_succ h
      have h2 : 2 * (j + 1) = (2 * j) + 2 := by ring
      have h3 : 2 * (j + 1) + 1 = (2 * j + 1) + 2 := by ring
      obtain ⟨ihA, ihB⟩ := ih j hj
      constructor
      · simpa [List.flatMap_cons, h2] using ihA
      · simpa [List.flatMap_cons, h3] using ihB

/-- C5: `validate_input_file` succeeds iff the file exists and its
extension, lowercased, is one of the six supported formats; an existing
`.txt` file is rejected, an existing `.mp4` or `.MP4` file is accepted,
and a missing file is rejected regardless of extension. -/
theorem validate_input_file_spec :
    (∀ env p, (validate_input_file env p).1 = true ↔
      (env.fileExists p = true ∧ strToLower (pathSuffix p) ∈ SUPPORTED_FORMATS)) ∧
    (∀ env p, strToLower (pathSuffix p) = ".txt" →
      (validate_input_file env p).1 = false) ∧
    (∀ env p, env.fileExists p = true → strToLower (pathSuffix p) = ".mp4" →
      (validate_input_file env p).1 = true) ∧
    (∀ env p, env.fileExists p = false → (validate_input_file env p).1 = false) := by
  have key : ∀ env p, (validate_input_file env p).1 = true ↔
      (env.fileExists p = true ∧ strToLower (pathSuffix p) ∈ SUPPORTED_FORMATS) := by
    intro env p
    unfold validate_input_file
    by_cases hx : env.fileExists p
    · by_cases hm : SUPPORTED_FORMATS.contains (strToLower (pathSuffix p))
      · simp [hx, hm, List.elem_iff.mp hm]
      · simp only [List.elem_iff] at hm
        simp [hx, hm]
    · simp [hx]
  refine ⟨key, ?_, ?_, ?_⟩
  · intro env p hs
    cases hv : (validate_input_file env p).1
    · rfl
    · have := (key env p).mp hv
      rw [hs] at this
      exact absurd this.2 (by decide)
  · intro env p hx hs
    exact (key env p).mpr ⟨hx, by rw [hs]; decide⟩
  · intro env p hx
    cases hv : (validate_input_file env p).1
    · rfl
    · have := (key env p).mp hv
      rw [hx] at this
      exact absurd this.1 (by decide)

/-- C5 witness: concrete instances exercising each hypothesis of the
specification theorem. -/
theorem validate_input_file_spec_witness :
    (validate_input_file envAllOk "clip.txt").1 = false ∧
    (validate_input_file envAllOk "clip.MP4").1 = true := by
  refine ⟨?_, ?_⟩
  · exact validate_input_file_spec.2.1 envAllOk "clip.txt" (by decide)
  · exact validate_input_file_spec.2.2.1 envAllOk "clip.MP4" (by decide) (by decide)

/-- C6: the transcode command copies the streams (`-c copy`), passes
`-map_metadata 0`, and its metadata arguments hold exactly one
`-metadata key=value` pair per profile entry (at positions `2i`,`2i+1`),
followed by a `creation_time` pair exactly when the override timestamp is
present. -/
theorem ffmpeg_command_shape (input_file output_file : String) (profile : Profile)
    (custom_date : Option String) :
    ffmpegCmd input_file output_file profile custom_date =
      ["ffmpeg", "-i", input_file, "-c", "copy", "-map_metadata", "0"] ++
        build_metadata_args profile custom_date ++ ["-y", output_file] ∧
    (build_metadata_args profile custom_date).length =
      2 * profile.length + (if custom_date.isSome then 2 else 0) ∧
    (∀ i (h : i < profile.length),
      (build_metadata_args profile custom_date).get? (2 * i) = some "-metadata" ∧
      (build_metadata_args profile custom_date).get? (2 * i + 1) =
        some ((profile.get ⟨i, h⟩).1 ++ "=" ++ (profile.get ⟨i, h⟩).2)) ∧
    (∀ d, custom_date = some d →
      (build_metadata_args profile custom_date).get? (2 * profile.length) =
        some "-metadata" ∧
      (build_metadata_args profile custom_date).get? (2 * profile.length + 1) =
        some ("creation_time=" ++ d)) ∧
    (custom_date = none →
      (build_metadata_args profile custom_date).length = 2 * profile.length) := by
  have hlen := metaArgs_length profile
  have hlen2 : (build_metadata_args profile custom_date).length =
      2 * profile.length + (if custom_date.isSome then 2 else 0) := by
    unfold build_metadata_args
    cases custom_date with
    | none => rw [List.length_append, hlen]; rfl
    | some d => rw [List.length_append, hlen]; rfl
  refine ⟨rfl, hlen2, ?_, ?_, ?_⟩
  · intro i h
    obtain ⟨hA, hB⟩ := metaArgs_get profile i h
    constructor
    · unfold build_metadata_args
      rw [List.get?_append (by omega)]
      exact hA
    · unfold build_metadata_args
      rw [List.get?_append (by omega)]
      exact hB
  · intro d hd
    subst hd
    constructor
    · unfold build_metadata_args
      rw [List.get?_append_right (by omega), hlen, Nat.sub_self]
      rfl
    · unfold build_metadata_args
      rw [List.get?_append_right (by omega), hlen,
        show 2 * profile.length + 1 - 2 * profile.length = 1 from by omega]
      rfl
  · intro hd
    subst hd
    rw [hlen2]
    rfl

/-- C6 witness: the command shape at a concrete profile and timestamp. -/
theorem ffmpeg_command_shape_witness :
    (build_metadata_args [("make", "Apple")] (some "2020-01-01 00:00:00")).get? 0 =
      some "-metadata" ∧
    (build_metadata_args [("make", "Apple")] (some "2020-01-01 00:00:00")).get? 1 =
      some "make=Apple" ∧
    (build_metadata_args [("make", "Apple")] (some "2020-01-01 00:00:00")).get? 2 =
      some "-metadata" ∧
    (build_metadata_args [("make", "Apple")] (some "2020-01-01 00:00:00")).get? 3 =
      some ("creation_time=" ++ "2020-01-01 00:00:00") := by
  obtain ⟨-, -, hpairs, hdate, -⟩ :=
    ffmpeg_command_shape "in.mp4" "out.mp4" [("make", "Apple")] (some "2020-01-01 00:00:00")
  obtain ⟨h0, h1⟩ := hpairs 0 (by decide)
  obtain ⟨h2, h3⟩ := hdate "2020-01-01 00:00:00" rfl
  exact ⟨h0, h1, h2, h3⟩

/-- C4: when the probe subprocess exits non-zero on an uncached path,
`get_current_metadata` catches the error, logs it, caches and returns the
empty document, and raises nothing. -/
theorem probe_failure_soft (env : Env) (cache : Cache) (p : String) (out : ProcOut)
    (hc : lookupKey cache p = none) (hr : env.run (probeCmd p) = .err out) :
    get_current_metadata env cache p =
      (.ok [], cache ++ [(p, [])],
       [.runProc (probeCmd p),
        .log .error ("Failed to read metadata: " ++ out.stderr)]) := by
  unfold get_current_metadata
  rw [hc, hr]

/-- C4 witness: the soft-failure result at a concrete path in an
environment whose subprocesses all exit non-zero. -/
theorem probe_failure_soft_witness :
    get_current_metadata envProcFail [] "clip.mp4" =
      (.ok [], [("clip.mp4", [])],
       [.runProc (probeCmd "clip.mp4"),
        .log .error ("Failed to read metadata: " ++ "boom")]) :=
  probe_failure_soft envProcFail [] "clip.mp4" ⟨"", "boom"⟩ rfl rfl

theorem cliMain_action_eq (env : Env) (args : Args) (i o : String)
    (hok : argsChoicesOk args = true) (hg : args.gui = false)
    (hl : args.list_devices = false) (hs : args.show_metadata = none)
    (hi : args.input = some i) (ho : args.output = some o)
    (hc1 : (args.strip && (args.device.isSome || args.custom_profile.isSome ||
        args.custom_date.isSome)) = false)
    (hc2 : (!args.strip && args.device.isNone && args.custom_profile.isNone) = false) :
    cliMain env args =
      (match (check_tools env).1 with
       | .error e =>
         ⟨1, (check_tools env).2 ++ [.log .error ("An error occurred: " ++ pyExcMsg e)]⟩
       | .ok _ =>
         if !(validate_input_file env i).1 then
           ⟨1, (check_tools env).2 ++ (validate_input_file env i).2⟩
         else if args.strip then
           match (strip_metadata env i o).1 with
           | .ok true =>
             ⟨0, (check_tools env).2 ++ (validate_input_file env i).2 ++
                 (strip_metadata env i o).2 ++
                 [.print ("Successfully stripped metadata. Output saved to: " ++ o)]⟩
           | .ok false =>
             ⟨1, (check_tools env).2 ++ (validate_input_file env i).2 ++
                 (strip_metadata env i o).2 ++ [.print "Failed to strip metadata."]⟩
           | .error e =>
             ⟨1, (check_tools env).2 ++ (validate_input_file env i).2 ++
                 (strip_metadata env i o).2 ++
                 [.log .error ("An error occurred: " ++ pyExcMsg e)]⟩
         else
           (let pr : Profile × List Effect :=
              match args.custom_profile with
              | some cp => load_custom_profile env cp
              | none =>
                (match args.device with
                 | some d => (lookupKey get_device_profiles d).getD []
                 | none => [], [])
            if pr.1.isEmpty && args.custom_profile.isNone then
              ⟨1, (check_tools env).2 ++ (validate_input_file env i).2 ++ pr.2 ++
                  [.log .error "Invalid device profile"]⟩
            else
              match (modify_metadata env i o pr.1 args.custom_date args.method).1 with
              | .ok true =>
                ⟨0, (check_tools env).2 ++ (validate_input_file env i).2 ++ pr.2 ++
                    (modify_metadata env i o pr.1 args.custom_date args.method).2 ++
                    [.print ("Successfully modified metadata. Output saved to: " ++ o)]⟩
              | .ok false =>
                ⟨1, (check_tools env).2 ++ (validate_input_file env i).2 ++ pr.2 ++
                    (modify_metadata env i o pr.1 args.custom_date args.method).2 ++
                    [.print "Failed to modify metadata."]⟩
              | .error e =>
                ⟨1, (check_tools env).2 ++ (validate_input_file env i).2 ++ pr.2 ++
                    (modify_metadata env i o pr.1 args.custom_date args.method).2 ++
                    [.log .error ("An error occurred: " ++ pyExcMsg e)]⟩)) := by
  unfold cliMain
  rw [hok, hg, hl, hs, hi, ho]
  simp only [Bool.not_true, Bool.false_eq_true, if_false, hc1, hc2]

/-- C1 counterexample: a modify invocation whose custom-profile file fails
to load (the profile source resolves to the empty mapping).  Contrary to
the claim, the run exits 0, never emits the "Invalid device profile"
error, and does invoke the ffmpeg write backend — with the empty
profile. -/
theorem invalid_profile_gate_refuted :
    (cliMain envProfileLoadFail argsModifyCustom).exitCode = 0 ∧
    Effect.log .error "Invalid device profile" ∉
      (cliMain envProfileLoadFail argsModifyCustom).effects ∧
    Effect.runProc (ffmpegCmd "in.mp4" "out.mp4" [] none) ∈
      (cliMain envProfileLoadFail argsModifyCustom).effects := by
  decide

/-- C1 amended: the "Invalid device profile" exit is guarded by
`not profile and not args.custom_profile`, so it can only fire when no
custom-profile flag was given; when the chosen profile source is a
custom-profile file that fails to resolve, the run logs the load failure
and proceeds to invoke the write backend with the empty mapping, its exit
code determined solely by that backend call. -/
theorem empty_custom_profile_proceeds (env : Env) (args : Args) (i o cp e : String)
    (hok : argsChoicesOk args = true) (hg : args.gui = false)
    (hl : args.list_devices = false) (hs : args.show_metadata = none)
    (hi : args.input = some i) (ho : args.output = some o)
    (hst : args.strip = false) (hcp : args.custom_profile = some cp)
    (hload : env.loadJsonProfile cp = .error e)
    (hct : (check_tools env).1 = .ok ()) (hv : (validate_input_file env i).1 = true) :
    cliMain env args =
      match (modify_metadata env i o [] args.custom_date args.method).1 with
      | .ok true =>
        ⟨0, (check_tools env).2 ++ (validate_input_file env i).2 ++
            [.log .error ("Failed to load custom profile: " ++ e)] ++
            (modify_metadata env i o [] args.custom_date args.method).2 ++
            [.print ("Successfully modified metadata. Output saved to: " ++ o)]⟩
      | .ok false =>
        ⟨1, (check_tools env).2 ++ (validate_input_file env i).2 ++
            [.log .error ("Failed to load custom profile: " ++ e)] ++
            (modify_metadata env i o [] args.custom_date args.method).2 ++
            [.print "Failed to modify metadata."]⟩
      | .error ex =>
        ⟨1, (check_tools env).2 ++ (validate_input_file env i).2 ++
            [.log .error ("Failed to load custom profile: " ++ e)] ++
            (modify_metadata env i o [] args.custom_date args.method).2 ++
            [.log .error ("An error occurred: " ++ pyExcMsg ex)]⟩ := by
  have hc1 : (args.strip && (args.device.isSome || args.custom_profile.isSome ||
      args.custom_date.isSome)) = false := by simp [hst]
  have hc2 : (!args.strip && args.device.isNone && args.custom_profile.isNone) = false := by
    simp [hcp]
  rw [cliMain_action_eq env args i o hok hg hl hs hi ho hc1 hc2, hct]
  simp only [hv, Bool.not_true, if_false, hst, hcp, load_custom_profile, hload,
    Option.isNone_some, Bool.and_false, ite_false, Bool.false_eq_true]

/-- C1 amended witness: the amended statement at the concrete failing
environment; the backend succeeds, so the run exits 0. -/
theorem empty_custom_profile_proceeds_witness :
    cliMain envProfileLoadFail argsModifyCustom =
      match (modify_metadata envProfileLoadFail "in.mp4" "out.mp4" [] none "ffmpeg").1 with
      | .ok true =>
        ⟨0, (check_tools envProfileLoadFail).2 ++
            (validate_input_file envProfileLoadFail "in.mp4").2 ++
            [.log .error ("Failed to load custom profile: " ++ "No such file or directory")] ++
            (modify_metadata envProfileLoadFail "in.mp4" "out.mp4" [] none "ffmpeg").2 ++
            [.print ("Successfully modified metadata. Output saved to: " ++ "out.mp4")]⟩
      | .ok false =>
        ⟨1, (check_tools envProfileLoadFail).2 ++
            (validate_input_file envProfileLoadFail "in.mp4").2 ++
            [.log .error ("Failed to load custom profile: " ++ "No such file or directory")] ++
            (modify_metadata envProfileLoadFail "in.mp4" "out.mp4" [] none "ffmpeg").2 ++
            [.print "Failed to modify metadata."]⟩
      | .error ex =>
        ⟨1, (check_tools envProfileLoadFail).2 ++
            (validate_input_file envProfileLoadFail "in.mp4").2 ++
            [.log .error ("Failed to load custom profile: " ++ "No such file or directory")] ++
            (modify_metadata envProfileLoadFail "in.mp4" "out.mp4" [] none "ffmpeg").2 ++
            [.log .error ("An error occurred: " ++ pyExcMsg ex)]⟩ :=
  empty_custom_profile_proceeds envProfileLoadFail argsModifyCustom
    "in.mp4" "out.mp4" "p.json" "No such file or directory"
    (by decide) rfl rfl rfl rfl rfl rfl rfl rfl rfl (by decide)

theorem device_profile_nonempty (d : String) (h : deviceNames.contains d = true) :
    ((lookupKey get_device_profiles d).getD []).isEmpty = false := by
  have hm : d ∈ deviceNames := List.elem_iff.mp h
  simp only [deviceNames, get_device_profiles, List.map_cons, List.map_nil,
    List.mem_cons, List.not_mem_nil, or_false] at hm
  rcases hm with rfl | rfl | rfl | rfl | rfl | rfl | rfl | rfl | rfl | rfl <;> decide

/-- C2 counterexample: an invocation with no flags at all is a
flag-validation failure (`parser.error` over the missing `--input` and
`--output`), and it exits with code 2, not 1. -/
theorem flag_failure_exits_two :
    (cliMain envAllOk argsEmpty).exitCode = 2 := by
  decide

/-- C2 amended: the exit code is 0 on success and 1 on input-validation
failure in strip/modify mode, on a write backend reporting failure or
raising, and on `check_tools` raising — but argparse-level flag failures
(bad choice values, missing `--input`/`--output`, `--strip` conflicts,
missing profile source) exit with code 2, and a `--show-metadata`
invocation whose input fails validation exits 0. -/
theorem exit_code_spec :
    (∀ env args, argsChoicesOk args = false → (cliMain env args).exitCode = 2) ∧
    (∀ env args, argsChoicesOk args = true → args.gui = false →
      args.list_devices = false → args.show_metadata = none →
      (args.input = none ∨ args.output = none) → (cliMain env args).exitCode = 2) ∧
    (∀ env args i o, argsChoicesOk args = true → args.gui = false →
      args.list_devices = false → args.show_metadata = none →
      args.input = some i → args.output = some o → args.strip = true →
      (args.device.isSome || args.custom_profile.isSome || args.custom_date.isSome) = true →
      (cliMain env args).exitCode = 2) ∧
    (∀ env args i o, argsChoicesOk args = true → args.gui = false →
      args.list_devices = false → args.show_metadata = none →
      args.input = some i → args.output = some o → args.strip = false →
      args.device = none → args.custom_profile = none →
      (cliMain env args).exitCode = 2) ∧
    (∀ env args p, argsChoicesOk args = true → args.gui = false →
      args.list_devices = false → args.show_metadata = some p →
      (check_tools env).1 = .ok () → (validate_input_file env p).1 = false →
      (cliMain env args).exitCode = 0) ∧
    (∀ env args i o ex, argsChoicesOk args = true → args.gui = false →
      args.list_devices = false → args.show_metadata = none →
      args.input = some i → args.output = some o →
      (args.strip && (args.device.isSome || args.custom_profile.isSome ||
        args.custom_date.isSome)) = false →
      (!args.strip && args.device.isNone && args.custom_profile.isNone) = false →
      (check_tools env).1 = .error ex → (cliMain env args).exitCode = 1) ∧
    (∀ env args i o, argsChoicesOk args = true → args.gui = false →
      args.list_devices = false → args.show_metadata = none →
      args.input = some i → args.output = some o →
      (args.strip && (args.device.isSome || args.custom_profile.isSome ||
        args.custom_date.isSome)) = false →
      (!args.strip && args.device.isNone && args.custom_profile.isNone) = false →
      (check_tools env).1 = .ok () → (validate_input_file env i).1 = false →
      (cliMain env args).exitCode = 1) ∧
    (∀ env args i o, argsChoicesOk args = true → args.gui = false →
      args.list_devices = false → args.show_metadata = none →
      args.input = some i → args.output = some o → args.strip = true →
      args.device = none → args.custom_profile = none → args.custom_date = none →
      (check_tools env).1 = .ok () → (validate_input_file env i).1 = true →
      (cliMain env args).exitCode =
        (match (strip_metadata env i o).1 with
         | .ok true => 0
         | _ => 1)) ∧
    (∀ env args i o cp, argsChoicesOk args = true → args.gui = false →
      args.list_devices = false → args.show_metadata = none →
      args.input = some i → args.output = some o → args.strip = false →
      args.custom_profile = some cp →
      (check_tools env).1 = .ok () → (validate_input_file env i).1 = true →
      (cliMain env args).exitCode =
        (match (modify_metadata env i o (load_custom_profile env cp).1
            args.custom_date args.method).1 with
         | .ok true => 0
         | _ => 1)) ∧
    (∀ env args i o d, argsChoicesOk args = true → args.gui = false →
      args.list_devices = false → args.show_metadata = none →
      args.input = some i → args.output = some o → args.strip = false →
      args.device = some d → args.custom_profile = none →
      (check_tools env).1 = .ok () → (validate_input_file env i).1 = true →
      (cliMain env args).exitCode =
        (match (modify_metadata env i o ((lookupKey get_device_profiles d).getD [])
            args.custom_date args.method).1 with
         | .ok true => 0
         | _ => 1)) := by
  refine ⟨?_, ?_, ?_, ?_, ?_, ?_, ?_, ?_, ?_, ?_⟩
  · intro env args h
    simp [cliMain, h]
  · intro env args hok hg hl hs hio
    unfold cliMain
    rw [hok, hg, hl, hs]
    simp only [Bool.not_true, Bool.false_eq_true, if_false]
    rcases hio with hin | hout
    · rw [hin]
    · rw [hout]
      try cases args.input <;> rfl
  · intro env args i o hok hg hl hs hi ho hst hflag
    unfold cliMain
    rw [hok, hg, hl, hs, hi, ho, hst, hflag]
    rfl
  · intro env args i o hok hg hl hs hi ho hst hd hcp
    unfold cliMain
    rw [hok, hg, hl, hs, hi, ho, hst, hd, hcp]
    rfl
  · intro env args p hok hg hl hshow hct hv
    simp only [cliMain, hok, hg, hl, hshow, Bool.not_true, Bool.false_eq_true,
      if_false, hct, hv]
  · intro env args i o ex hok hg hl hs hi ho hc1 hc2 hct
    rw [cliMain_action_eq env args i o hok hg hl hs hi ho hc1 hc2, hct]
  · intro env args i o hok hg hl hs hi ho hc1 hc2 hct hv
    rw [cliMain_action_eq env args i o hok hg hl hs hi ho hc1 hc2, hct]
    simp only [hv, Bool.not_false, if_true]
  · intro env args i o hok hg hl hs hi ho hst hd hcp hdt hct hv
    have hc1 : (args.strip && (args.device.isSome || args.custom_profile.isSome ||
        args.custom_date.isSome)) = false := by simp [hd, hcp, hdt]
    have hc2 : (!args.strip && args.device.isNone && args.custom_profile.isNone) = false := by
      simp [hst]
    rw [cliMain_action_eq env args i o hok hg hl hs hi ho hc1 hc2, hct]
    simp only [hv, Bool.not_true, if_false, hst, if_true, ite_true]
    cases hsm : (strip_metadata env i o).1 with
    | ok b => cases b <;> simp [hsm]
    | error e => simp [hsm]
  · intro env args i o cp hok hg hl hs hi ho hst hcp hct hv
    have hc1 : (args.strip && (args.device.isSome || args.custom_profile.isSome ||
        args.custom_date.isSome)) = false := by simp [hst]
    have hc2 : (!args.strip && args.device.isNone && args.custom_profile.isNone) = false := by
      simp [hcp]
    rw [cliMain_action_eq env args i o hok hg hl hs hi ho hc1 hc2, hct]
    simp only [hv, Bool.not_true, if_false, hst, hcp, Option.isNone_some,
      Bool.and_false, ite_false, Bool.false_eq_true]
    cases hm : (modify_metadata env i o (load_custom_profile env cp).1
        args.custom_date args.method).1 with
    | ok b => cases b <;> simp [hm]
    | error e => simp [hm]
  · intro env args i o d hok hg hl hs hi ho hst hd hcp hct hv
    have hc1 : (args.strip && (args.device.isSome || args.custom_profile.isSome ||
        args.custom_date.isSome)) = false := by simp [hst]
    have hc2 : (!args.strip && args.device.isNone && args.custom_profile.isNone) = false := by
      simp [hd]
    have hdev : deviceNames.contains d = true := by
      have h2 := hok
      unfold argsChoicesOk at h2
      rw [hd] at h2
      simp only [Bool.and_eq_true] at h2
      exact h2.1
    have hne := device_profile_nonempty d hdev
    rw [cliMain_action_eq env args i o hok hg hl hs hi ho hc1 hc2, hct]
    simp only [hv, Bool.not_true, if_false, hst, hcp, hd, Option.isNone_none,
      Bool.and_true, hne, ite_false, Bool.false_eq_true]
    cases hm : (modify_metadata env i o ((lookupKey get_device_profiles d).getD [])
        args.custom_date args.method).1 with
    | ok b => cases b <;> simp [hm]
    | error e => simp [hm]

/-- C2 amended witness: the amended exit-code statement exercised at
concrete invocations — no flags at all (exit 2), show-metadata on an
unsupported file (exit 0), a successful strip (exit 0), and a device
modify whose ffmpeg write fails (exit 1). -/
theorem exit_code_spec_witness :
    (cliMain envAllOk argsEmpty).exitCode = 2 ∧
    (cliMain envAllOk argsShowBad).exitCode = 0 ∧
    (cliMain envAllOk argsStrip).exitCode = 0 ∧
    (cliMain envWriteFail argsDevice).exitCode = 1 := by
  refine ⟨?_, ?_, ?_, ?_⟩
  · exact exit_code_spec.2.1 envAllOk argsEmpty (by decide) rfl rfl rfl (Or.inl rfl)
  · exact exit_code_spec.2.2.2.2.1 envAllOk argsShowBad "notes.txt"
      (by decide) rfl rfl rfl rfl (by decide)
  · have h := exit_code_spec.2.2.2.2.2.2.2.1 envAllOk argsStrip "in.mov" "out.mov"
      (by decide) rfl rfl rfl rfl rfl rfl rfl rfl rfl rfl (by decide)
    rw [h]
    decide
  · have h := exit_code_spec.2.2.2.2.2.2.2.2.2 envWriteFail argsDevice
      "in.mp4" "out.mp4" "iPhone 14 Pro"
      (by decide) rfl rfl rfl rfl rfl rfl rfl rfl rfl (by decide)
    rw [h]
    decide

/-- C3 counterexample: with a missing profile file, `load_custom_profile`
hands the caller an ordinary profile value — the empty mapping plus a
logged error — not an IOError/ParseError-style failure; in the model its
type has no failure channel at all because the source catches every
exception. -/
theorem load_profile_failure_returns_value :
    load_custom_profile envProfileLoadFail "absent.json" =
      ([], [.log .error ("Failed to load custom profile: " ++ "No such file or directory")]) := by
  rfl

/-- C3 amended: on a missing file or invalid JSON, `load_custom_profile`
logs the exception and returns the empty mapping as an ordinary value,
raising nothing to the caller. -/
theorem load_custom_profile_soft_failure (env : Env) (profile_path e : String)
    (h : env.loadJsonProfile profile_path = .error e) :
    load_custom_profile env profile_path =
      ([], [.log .error ("Failed to load custom profile: " ++ e)]) := by
  unfold load_custom_profile
  rw [h]

/-- C3 amended witness: the soft failure at a concrete missing file. -/
theorem load_custom_profile_soft_failure_witness :
    load_custom_profile envProfileLoadFail "missing.json" =
      ([], [.log .error ("Failed to load custom profile: " ++ "No such file or directory")]) :=
  load_custom_profile_soft_failure envProfileLoadFail "missing.json"
    "No such file or directory" rfl

/-- C7 counterexample: dispatching an unrecognized backend name emits an
error-level log line and no warning-level line at all, contradicting the
claim that a warning is logged. -/
theorem unknown_method_warning_refuted :
    (modify_metadata envAllOk "a.mp4" "b.mp4" [("make", "Apple")] none "mp4box").2.filter
        (fun fx => match fx with
          | Effect.log Level.warning _ => true
          | _ => false) = [] ∧
    Effect.log .error "Unsupported method: mp4box. Falling back to FFmpeg." ∈
      (modify_metadata envAllOk "a.mp4" "b.mp4" [("make", "Apple")] none "mp4box").2 := by
  decide

/-- C7 amended: an unrecognized backend name logs an error-level message
(not a warning), raises nothing beyond what the ffmpeg backend itself
does, and dispatches to the ffmpeg backend: the result is that of the
ffmpeg invocation with the log line prepended, and the returned value is
identical to invoking `modify_metadata` with method `ffmpeg`. -/
theorem unknown_method_fallback (env : Env) (input_file output_file : String)
    (device_profile : Profile) (custom_date : Option String) (method : String)
    (h1 : method ≠ "mutagen") (h2 : method ≠ "exiftool") (h3 : method ≠ "ffmpeg") :
    modify_metadata env input_file output_file device_profile custom_date method =
      ((modify_metadata_ffmpeg env input_file output_file device_profile custom_date).1,
       .log .error ("Unsupported method: " ++ method ++ ". Falling back to FFmpeg.") ::
         (modify_metadata_ffmpeg env input_file output_file device_profile custom_date).2) ∧
    (modify_metadata env input_file output_file device_profile custom_date method).1 =
      (modify_metadata env input_file output_file device_profile custom_date "ffmpeg").1 := by
  have key : modify_metadata env input_file output_file device_profile custom_date method =
      ((modify_metadata_ffmpeg env input_file output_file device_profile custom_date).1,
       .log .error ("Unsupported method: " ++ method ++ ". Falling back to FFmpeg.") ::
         (modify_metadata_ffmpeg env input_file output_file device_profile custom_date).2) := by
    unfold modify_metadata
    rw [if_neg h1, if_neg h2, if_neg h3]
  refine ⟨key, ?_⟩
  rw [key]
  unfold modify_metadata
  rw [if_neg (by decide), if_neg (by decide), if_pos rfl]

/-- C7 amended witness: the fallback at a concrete unknown method name. -/
theorem unknown_method_fallback_witness :
    modify_metadata envAllOk "c.mp4" "d.mp4" [] none "handbrake" =
      ((modify_metadata_ffmpeg envAllOk "c.mp4" "d.mp4" [] none).1,
       .log .error ("Unsupported method: " ++ "handbrake" ++ ". Falling back to FFmpeg.") ::
         (modify_metadata_ffmpeg envAllOk "c.mp4" "d.mp4" [] none).2) ∧
    (modify_metadata envAllOk "c.mp4" "d.mp4" [] none "handbrake").1 =
      (modify_metadata envAllOk "c.mp4" "d.mp4" [] none "ffmpeg").1 :=
  unknown_method_fallback envAllOk "c.mp4" "d.mp4" [] none "handbrake"
    (by decide) (by decide) (by decide)

/-- C8: the mutagen backend rejects any input whose lowercased extension
is not `.mp4`: it returns `False` with only a warning log — no process
invocation and no file operation — both called directly and through the
dispatcher. -/
theorem mutagen_non_mp4_skip (env : Env) (input_file output_file : String)
    (device_profile : Profile) (custom_date : Option String)
    (h : strToLower (pathSuffix input_file) ≠ ".mp4") :
    modify_metadata_mutagen env input_file output_file device_profile custom_date =
      (.ok false, [.log .warning "Mutagen supports only MP4 files. Skipping."]) ∧
    modify_metadata env input_file output_file device_profile custom_date "mutagen" =
      (.ok false, [.log .warning "Mutagen supports only MP4 files. Skipping."]) := by
  have h1 : modify_metadata_mutagen env input_file output_file device_profile custom_date =
      (.ok false, [.log .warning "Mutagen supports only MP4 files. Skipping."]) := by
    unfold modify_metadata_mutagen
    rw [if_pos h]
  refine ⟨h1, ?_⟩
  unfold modify_metadata
  rw [if_pos rfl]
  exact h1

/-- C8 witness: a `.mkv` input is skipped by the mutagen backend. -/
theorem mutagen_non_mp4_skip_witness :
    modify_metadata_mutagen envAllOk "clip.mkv" "out.mkv" [("make", "Apple")] none =
      (.ok false, [.log .warning "Mutagen supports only MP4 files. Skipping."]) ∧
    modify_metadata envAllOk "clip.mkv" "out.mkv" [("make", "Apple")] none "mutagen" =
      (.ok false, [.log .warning "Mutagen supports only MP4 files. Skipping."]) :=
  mutagen_non_mp4_skip envAllOk "clip.mkv" "out.mkv" [("make", "Apple")] none (by decide)

/-- C9: the probe cache.  A cache hit returns the stored document with no
effects; a call that returns a document on a miss invokes the probe,
stores exactly that document, and a second call for the same path returns
it again with no effects (so no second probe invocation); and no cache
entry is ever removed or overwritten by a call. -/
theorem metadata_cache_spec :
    (∀ env cache p doc, lookupKey cache p = some doc →
      get_current_metadata env cache p = (.ok doc, cache, [])) ∧
    (∀ env cache p doc cache2 fx, lookupKey cache p = none →
      get_current_metadata env cache p = (.ok doc, cache2, fx) →
      Effect.runProc (probeCmd p) ∈ fx ∧
      lookupKey cache2 p = some doc ∧
      get_current_metadata env cache2 p = (.ok doc, cache2, [])) ∧
    (∀ env cache p r cache2 fx q dq,
      get_current_metadata env cache p = (r, cache2, fx) →
      lookupKey cache q = some dq → lookupKey cache2 q = some dq) := by
  have hit : ∀ env cache p doc, lookupKey cache p = some doc →
      get_current_metadata env cache p = (.ok doc, cache, []) := by
    intro env cache p doc hc
    unfold get_current_metadata
    rw [hc]
  refine ⟨hit, ?_, ?_⟩
  · intro env cache p doc cache2 fx hc hcall
    unfold get_current_metadata at hcall
    cases hr : env.run (probeCmd p) with
    | ok out =>
      cases hj : env.jsonLoadsDoc out.stdout with
      | some metadata =>
        simp only [hc, hr, hj, Prod.mk.injEq, Except.ok.injEq] at hcall
        obtain ⟨h1, h2, h3⟩ := hcall
        subst h1
        subst h2
        subst h3
        refine ⟨by simp, lookupKey_append_self cache p _ hc, ?_⟩
        exact hit env _ p _ (lookupKey_append_self cache p _ hc)
      | none =>
        simp only [hc, hr, hj] at hcall
        simp at hcall
    | err out =>
      simp only [hc, hr, Prod.mk.injEq, Except.ok.injEq] at hcall
      obtain ⟨h1, h2, h3⟩ := hcall
      subst h1
      subst h2
      subst h3
      refine ⟨by simp, lookupKey_append_self cache p _ hc, ?_⟩
      exact hit env _ p _ (lookupKey_append_self cache p _ hc)
    | notFound =>
      simp only [hc, hr] at hcall
      simp at hcall
  · intro env cache p r cache2 fx q dq hcall hq
    unfold get_current_metadata at hcall
    cases hc : lookupKey cache p with
    | some doc =>
      simp only [hc, Prod.mk.injEq] at hcall
      obtain ⟨-, h2, -⟩ := hcall
      subst h2
      exact hq
    | none =>
      cases hr : env.run (probeCmd p) with
      | ok out =>
        cases hj : env.jsonLoadsDoc out.stdout with
        | some metadata =>
          simp only [hc, hr, hj, Prod.mk.injEq] at hcall
          obtain ⟨-, h2, -⟩ := hcall
          subst h2
          exact lookupKey_append_left cache _ q dq hq
        | none =>
          simp only [hc, hr, hj, Prod.mk.injEq] at hcall
          obtain ⟨-, h2, -⟩ := hcall
          subst h2
          exact hq
      | err out =>
        simp only [hc, hr, Prod.mk.injEq] at hcall
        obtain ⟨-, h2, -⟩ := hcall
        subst h2
        exact lookupKey_append_left cache _ q dq hq
      | notFound =>
        simp only [hc, hr, Prod.mk.injEq] at hcall
        obtain ⟨-, h2, -⟩ := hcall
        subst h2
        exact hq

/-- C9 witness: after a first (probe-invoking) call on an uncached path,
the path is cached and a second call returns the same document with no
effects. -/
theorem metadata_cache_spec_witness :
    Effect.runProc (probeCmd "video.mp4") ∈
      [Effect.runProc (probeCmd "video.mp4"),
       Effect.log .error ("Failed to read metadata: " ++ "boom")] ∧
    lookupKey [("video.mp4", ([] : MetaDoc))] "video.mp4" = some [] ∧
    get_current_metadata envProcFail [("video.mp4", [])] "video.mp4" =
      (.ok [], [("video.mp4", [])], []) :=
  metadata_cache_spec.2.1 envProcFail [] "video.mp4" [] [("video.mp4", [])]
    [Effect.runProc (probeCmd "video.mp4"),
     Effect.log .error ("Failed to read metadata: " ++ "boom")] rfl rfl

/-- C10: `check_tools` raises (a `RuntimeError`) exactly when the ffmpeg
probe invocation does not succeed; a missing exiftool only logs a warning
and the check still returns normally, so an exiftool-backend modify
request is still dispatched and fails only at its own invocation. -/
theorem check_tools_policy :
    (∀ env out, env.run ["ffmpeg", "-version"] = .ok out →
      (check_tools env).1 = .ok ()) ∧
    (∀ env, (∀ out, env.run ["ffmpeg", "-version"] ≠ .ok out) →
      (check_tools env).1 =
        .error (.runtimeError "FFmpeg is required but not found. Please install FFmpeg.")) ∧
    (∀ env out, env.run ["ffmpeg", "-version"] = .ok out →
      (∀ out2, env.run ["exiftool", "-ver"] ≠ .ok out2) →
      Effect.log .warning "ExifTool not found. Some metadata features may be limited." ∈
        (check_tools env).2) ∧
    (∀ env input_file output_file device_profile custom_date,
      env.run (exiftoolCmd input_file output_file device_profile custom_date) = .notFound →
      modify_metadata env input_file output_file device_profile custom_date "exiftool" =
        (.error (.fileNotFoundError "exiftool"),
         [.log .info ("Executing: " ++
            joinSpace (exiftoolCmd input_file output_file device_profile custom_date)),
          .runProc (exiftoolCmd input_file output_file device_profile custom_date)])) := by
  refine ⟨?_, ?_, ?_, ?_⟩
  · intro env out h
    unfold check_tools
    rw [h]
    cases h2 : env.run ["exiftool", "-ver"] <;> rfl
  · intro env h
    unfold check_tools
    cases h2 : env.run ["ffmpeg", "-version"] with
    | ok out => exact absurd h2 (h out)
    | err out => rfl
    | notFound => rfl
  · intro env out h h2
    unfold check_tools
    rw [h]
    cases h3 : env.run ["exiftool", "-ver"] with
    | ok out2 => exact absurd h3 (h2 out2)
    | err out2 => simp
    | notFound => simp
  · intro env input_file output_file device_profile custom_date h
    unfold modify_metadata
    rw [if_neg (by decide), if_pos rfl]
    unfold modify_metadata_exiftool
    simp only [h]

/-- C10 witness: in an environment where exiftool is absent, `check_tools`
succeeds with the warning logged, and the exiftool backend fails when
invoked. -/
theorem check_tools_policy_witness :
    (check_tools envNoExiftool).1 = .ok () ∧
    Effect.log .warning "ExifTool not found. Some metadata features may be limited." ∈
      (check_tools envNoExiftool).2 ∧
    modify_metadata envNoExiftool "a.mp4" "b.mp4" [] none "exiftool" =
      (.error (.fileNotFoundError "exiftool"),
       [.log .info ("Executing: " ++ joinSpace (exiftoolCmd "a.mp4" "b.mp4" [] none)),
        .runProc (exiftoolCmd "a.mp4" "b.mp4" [] none)]) := by
  refine ⟨?_, ?_, ?_⟩
  · exact check_tools_policy.1 envNoExiftool okOut rfl
  · exact check_tools_policy.2.2.1 envNoExiftool okOut rfl
      (fun out2 h => by simp [envNoExiftool] at h)
  · exact check_tools_policy.2.2.2 envNoExiftool "a.mp4" "b.mp4" [] none rfl
